import Mathlib

/-!
# Startup orchestration of the virtual node agent

A shallow embedding of `internal/commands/root/root.go`:
`runRootCommandWithProviderAndClient`, `waitFor`, the node-status-update
error handler passed to `node.NewNodeController`, and the two goroutine
bodies that supervise the pod and node controllers.

The function is sequential glue around collaborators (the provider registry,
the cluster client, the controller library, the HTTP server).  Every
collaborator is a field of `World`: the value it answers with is an input of
the model, the order in which the orchestrator calls them is recorded as a
trace of `Event`s, and the way the function ends is an `Outcome`.
-/

namespace Root

/-! ## Errors -/

/-- Go `error` values that are not nil.  `wrap` is what `errors.Wrap` and
`errors.Wrapf` build (format string and arguments are kept apart, the text is
never rendered); `invalidInput` is what `errdefs.InvalidInput` and
`errdefs.InvalidInputf` build; `canceled` and `deadlineExceeded` are the two
sentinel values of package `context`; `other` is any other leaf error a
collaborator hands back. -/
inductive Err where
  | canceled : Err
  | deadlineExceeded : Err
  | other (id : String) : Err
  | invalidInput (format : String) (args : List String) : Err
  | wrap (cause : Err) (format : String) (args : List String) : Err
  deriving DecidableEq, Repr

/-- The `errors.Cause` function of `github.com/pkg/errors`: strip wrappers
until an error that carries no cause. -/
def Cause : Err → Err
  | .wrap cause _ _ => Cause cause
  | e => e

/-- The `errdefs.InvalidInput(msg)` constructor. -/
def InvalidInput (msg : String) : Err := .invalidInput msg []

/-- The `errdefs.InvalidInputf(format, args...)` constructor. -/
def InvalidInputf (format : String) (args : List String) : Err := .invalidInput format args

/-- The `errdefs.IsInvalidInput` test, on the errors this file builds. -/
def IsInvalidInput : Option Err → Bool
  | some (.invalidInput _ _) => true
  | _ => false

/-! ## Data -/

/-- The fields of `opts.Opts` that `runRootCommandWithProviderAndClient` reads.
`PodSyncWorkers` is a Go `int`, `StartupTimeout` a `time.Duration`. -/
structure Opts where
  Provider : String
  NodeName : String
  OperatingSystem : String
  KubeNamespace : String
  KubeClusterDomain : String
  ProviderConfigPath : String
  Version : String
  PodSyncWorkers : Int
  StartupTimeout : Int
  ListenPort : Int
  DisableTaint : Bool
  EnableNodeLease : Bool
  deriving DecidableEq, Repr

/-- A `corev1.Taint`. -/
structure Taint where
  Key : String
  Value : String
  Effect : String
  deriving DecidableEq, Repr

/-- The six listers handed to `manager.NewResourceManager`, in call order. -/
inductive Lister where
  | pods | secrets | configMaps | services | persistentVolumeClaims | persistentVolumes
  deriving DecidableEq, Repr

/-- The handle returned by `manager.NewResourceManager`. -/
structure ResourceManager where
  listers : List Lister
  deriving DecidableEq, Repr

/-- The value returned by the provider init function; `isNodeProvider` is the
result of the type assertion `p.(node.NodeProvider)`. -/
structure Provider where
  name : String
  isNodeProvider : Bool
  deriving DecidableEq, Repr

/-- The `provider.InitConfig` struct. -/
structure InitConfig where
  ConfigPath : String
  NodeName : String
  OperatingSystem : String
  ResourceManager : ResourceManager
  DaemonPort : Int
  InternalIP : String
  KubeClusterDomain : String
  deriving DecidableEq, Repr

/-- The fields of the API config that the orchestrator reads or writes. -/
structure APIConfig where
  AuthWebhookEnabled : Bool
  Auth : Option String
  deriving DecidableEq, Repr

/-- A `corev1.Node`, as far as the orchestrator and its hook look at it. -/
structure Node where
  Name : String
  ResourceVersion : String
  Labels : List (String × String)
  Taints : List Taint
  KubeletVersion : String
  deriving DecidableEq, Repr

/-- The node provider handed to `node.NewNodeController`: the provider itself
when it implements `node.NodeProvider`, else `node.NaiveNodeProvider`. -/
inductive NodeProvider where
  | ofProvider (p : Provider)
  | naive
  deriving DecidableEq, Repr

/-- Which case of the `select` in `waitFor` fires: the ready channel, or the
`Done` channel of the timeout context (because the deadline passed, or
because the enclosing context was cancelled). -/
inductive Select where
  | ready
  | deadline
  | parentCancelled
  deriving DecidableEq, Repr

/-- Conversion `int32(x)` of a Go integer. -/
def toInt32 (x : Int) : Int := (x + 2 ^ 31) % 2 ^ 32 - 2 ^ 31

/-! ## Trace and outcome -/

/-- The calls made to the node API of the cluster client. -/
inductive NodeCall where
  | create (n : Node)
  | update (n : Node)
  | updateStatus (n : Node)
  | get (name : String)
  | delete (name : String)
  deriving DecidableEq, Repr

/-- What the orchestrator does, one constructor per call site of
`runRootCommandWithProviderAndClient` and `waitFor`. -/
inductive Event where
  | getTaint
  | newResourceManager (listers : List Lister)
  | startPodInformers
  | startScmInformers
  | getAPIConfig
  | buildAuth
  | providerInit (cfg : InitConfig)
  | nodeFromProvider
  | newNodeController (np : NodeProvider) (pNode : Node) (lease : Bool)
  | startEventBroadcaster
  | newPodController
  | setupHTTPServer
  | goPodControllerRun (workers : Int)
  | waitFor (timeout : Int)
  | goNodeControllerRun
  | awaitCtxDone
  | cancelHTTP
  | cancel
  | fatal (err : Err)
  deriving DecidableEq, Repr

/-- How a call of the orchestrator ends: it returns its `error` result to the
caller, the process is terminated by `log.G(ctx).Fatal`, or it stays blocked
on `<-ctx.Done()` because the enclosing context is never cancelled. -/
inductive Outcome where
  | returned (err : Option Err)
  | terminated (err : Err)
  | blocked
  deriving DecidableEq, Repr

/-- A run: the events in program order and the outcome. -/
structure Run where
  trace : List Event
  outcome : Outcome
  deriving DecidableEq, Repr

/-! ## Collaborators -/

/-- The two controller loops the orchestrator launches in goroutines. -/
inductive Loop where
  | podController
  | nodeController
  deriving DecidableEq, Repr

/-- A controller loop that has returned: which loop, and the `error` value its
`Run` method returned to the goroutine that supervises it. -/
structure Completion where
  loop : Loop
  runErr : Option Err
  deriving DecidableEq, Repr

/-- The answers of everything the orchestrator calls but does not define.
`ValidOperatingSystems` is the map of package `provider`; `getTaint`,
`getAPIConfig`, `BuildAuth`, `NodeFromProvider` and `setupHTTPServer` are
functions of package `root` defined in other files; the rest belongs to the
controller, client and apimachinery libraries.  `select` is the case of the
`select` statement in `waitFor` that the scheduler picks, `ctxCancelled`
says whether the enclosing context is ever cancelled, and `completions` lists
the controller loops that return while the orchestrator is blocked on
`<-ctx.Done()` and before it has returned, in the order in which their
goroutines get to run. -/
structure World where
  ValidOperatingSystems : List (String × Bool)
  getTaint : Opts → Except Err Taint
  NewResourceManager : List Lister → Except Err ResourceManager
  getAPIConfig : Opts → Except Err APIConfig
  BuildAuth : String → Opts → Except Err String
  VKUBELET_POD_IP : String
  pInit : InitConfig → Except Err Provider
  NodeFromProvider : String → Option Taint → Provider → String → Node
  NewNodeController : NodeProvider → Node → Bool → Option Err
  NewPodController : Provider → Option Err
  setupHTTPServer : Provider → APIConfig → Option Err
  select : Select
  ctxCancelled : Bool
  completions : List Completion
  IsNotFound : Option Err → Bool
  nodesCreate : Node → Except Err Node

/-- Indexing a Go `map[string]bool`: the stored value, or `false` for a key
that is absent. -/
def mapIndex (m : List (String × Bool)) (k : String) : Bool :=
  (m.lookup k).getD false

/-! ## The node-status-update error handler -/

/-- The closure passed to `node.WithNodeStatusUpdateErrorHandler`: it gets the
error of a failed status push and answers with the calls it made to the node
API and the error it returns (`none` is Go's nil). -/
def nodeStatusUpdateErrorHandler (w : World) (pNode : Node) (err : Option Err) :
    List NodeCall × Option Err :=
  if !w.IsNotFound err then
    ([], err)
  else
    -- newNode := pNode.DeepCopy(); newNode.ResourceVersion = ""
    let newNode : Node := { pNode with ResourceVersion := "" }
    match w.nodesCreate newNode with
    | .error err => ([.create newNode], some err)
    | .ok _ => ([.create newNode], none)

/-! ## The readiness gate and the two supervised tasks -/

/-- The `waitFor` function: the result of the `select` over the ready channel
and the `Done` channel of the timeout context. -/
def waitFor (sel : Select) : Option Err :=
  match sel with
  | .ready => none
  -- ctx.Err() is context.DeadlineExceeded
  | .deadline => some (.wrap .deadlineExceeded "Error while starting up VK" [])
  -- ctx.Err() is context.Canceled
  | .parentCancelled => some (.wrap .canceled "Error while starting up VK" [])

/-- How a supervising goroutine ends once the controller loop has returned:
quietly, or through `log.G(ctx).Fatal`, which terminates the process. -/
inductive TaskEnd where
  | clean
  | fatal (err : Err)
  deriving DecidableEq, Repr

/-- The goroutine around `pc.Run(ctx, c.PodSyncWorkers)`; `runErr` is the
value `pc.Run` returns. -/
def podControllerTask (runErr : Option Err) : TaskEnd :=
  match runErr with
  | some err => if Cause err ≠ .canceled then .fatal err else .clean
  | none => .clean

/-- The goroutine around `nodeRunner.Run(ctx)`; `runErr` is the value
`nodeRunner.Run` returns. -/
def nodeControllerTask (runErr : Option Err) : TaskEnd :=
  match runErr with
  | some err => .fatal err
  | none => .clean

/-! ## The orchestrator -/

/-- The run `r` preceded by the events `tr`. -/
def Run.prepend (tr : List Event) (r : Run) : Run :=
  ⟨tr ++ r.trace, r.outcome⟩

/-- The goroutine body that runs when a loop returns: the one of lines 241 to
245 for the pod controller, the one of lines 257 to 261 for the node
controller. -/
def Completion.taskEnd (k : Completion) : TaskEnd :=
  match k.loop with
  | .podController => podControllerTask k.runErr
  | .nodeController => nodeControllerTask k.runErr

/-- The error of the first goroutine body that reaches `log.G(ctx).Fatal`,
among the loops that returned, in order. -/
def firstFatal : List Completion → Option Err
  | [] => none
  | k :: ks =>
    match k.taskEnd with
    | .fatal err => some err
    | .clean => firstFatal ks

/-- Lines 257 to 266: launch the node controller and block on `<-ctx.Done()`.
A goroutine body that reaches `Fatal` meanwhile ends the process; else, once
the context is cancelled, `return nil`, on which the deferred `cancelHTTP`
and `cancel` run; else the orchestrator stays blocked. -/
def launchNodeController (w : World) : Run :=
  Run.prepend [.goNodeControllerRun, .awaitCtxDone] <|
    match firstFatal w.completions with
    | some err => ⟨[.fatal err], .terminated err⟩
    | none =>
      if w.ctxCancelled then
        ⟨[.cancelHTTP, .cancel], .returned none⟩
      else
        ⟨[], .blocked⟩

/-- Lines 241 to 266: launch the pod controller, pass the readiness gate,
launch the node controller, wait for cancellation. -/
def supervise (w : World) (c : Opts) : Run :=
  Run.prepend [.goPodControllerRun c.PodSyncWorkers] <|
    if c.StartupTimeout > 0 then
      Run.prepend [.waitFor c.StartupTimeout] <|
        match waitFor w.select with
        | some err => ⟨[.cancelHTTP, .cancel], .returned (some err)⟩
        | none => launchNodeController w
    else
      launchNodeController w

/-- Lines 173 to 239: node object, node controller, event broadcaster, pod
controller, HTTP server.  A failure of `node.NewNodeController` goes to
`log.G(ctx).Fatal`, which ends the process: no deferred call runs. -/
def buildControllers (w : World) (c : Opts) (taint : Option Taint) (p : Provider)
    (apiConfig : APIConfig) : Run :=
  let leaseClient : Bool := c.EnableNodeLease
  let nodeProvider : NodeProvider := if p.isNodeProvider then .ofProvider p else .naive
  let pNode := w.NodeFromProvider c.NodeName taint p c.Version
  Run.prepend [.nodeFromProvider, .newNodeController nodeProvider pNode leaseClient] <|
    match w.NewNodeController nodeProvider pNode leaseClient with
    | some err => ⟨[.fatal err], .terminated err⟩
    | none =>
      Run.prepend [.startEventBroadcaster, .newPodController] <|
        match w.NewPodController p with
        | some err =>
          ⟨[.cancel], .returned (some (.wrap err "error setting up pod controller" []))⟩
        | none =>
          Run.prepend [.setupHTTPServer] <|
            match w.setupHTTPServer p apiConfig with
            | some err => ⟨[.cancel], .returned (some err)⟩
            | none => supervise w c

/-- The `provider.InitConfig` value of lines 158 to 166. -/
def initConfig (w : World) (c : Opts) (rm : ResourceManager) : InitConfig :=
  { ConfigPath := c.ProviderConfigPath
    NodeName := c.NodeName
    OperatingSystem := c.OperatingSystem
    ResourceManager := rm
    DaemonPort := toInt32 c.ListenPort
    InternalIP := w.VKUBELET_POD_IP
    KubeClusterDomain := c.KubeClusterDomain }

/-- Lines 158 to 171 and what follows: the call of the provider init function. -/
def callProviderInit (w : World) (c : Opts) (taint : Option Taint) (rm : ResourceManager)
    (apiConfig : APIConfig) : Run :=
  Run.prepend [.providerInit (initConfig w c rm)] <|
    match w.pInit (initConfig w c rm) with
    | .error err =>
      ⟨[.cancel], .returned (some (.wrap err "error initializing provider %s" [c.Provider]))⟩
    | .ok p => buildControllers w c taint p apiConfig

/-- Lines 144 to 156 and what follows: API config and webhook authentication. -/
def initProvider (w : World) (c : Opts) (taint : Option Taint) (rm : ResourceManager) : Run :=
  Run.prepend [.getAPIConfig] <|
    match w.getAPIConfig c with
    | .error err => ⟨[.cancel], .returned (some err)⟩
    | .ok apiConfig =>
      if apiConfig.AuthWebhookEnabled then
        Run.prepend [.buildAuth] <|
          match w.BuildAuth c.NodeName c with
          | .error err => ⟨[.cancel], .returned (some err)⟩
          | .ok auth => callProviderInit w c taint rm { apiConfig with Auth := some auth }
      else
        callProviderInit w c taint rm apiConfig

/-- The listers of the six informers, in the order of the call at line 129. -/
def informerListers : List Lister :=
  [.pods, .secrets, .configMaps, .services, .persistentVolumeClaims, .persistentVolumes]

/-- Lines 110 to 142 and what follows: the resource manager is built from the
listers of the informers, then the two informer factories are started. -/
def startCaches (w : World) (c : Opts) (taint : Option Taint) : Run :=
  Run.prepend [.newResourceManager informerListers] <|
    match w.NewResourceManager informerListers with
    | .error err =>
      ⟨[.cancel], .returned (some (.wrap err "could not create resource manager" []))⟩
    | .ok rm =>
      Run.prepend [.startPodInformers, .startScmInformers] (initProvider w c taint rm)

/-- Lines 101 to 108 and what follows: the optional taint. -/
def computeTaint (w : World) (c : Opts) : Run :=
  if !c.DisableTaint then
    Run.prepend [.getTaint] <|
      match w.getTaint c with
      | .error err => ⟨[.cancel], .returned (some err)⟩
      | .ok taint => startCaches w c (some taint)
  else
    startCaches w c none

/-- The function `runRootCommandWithProviderAndClient`; the provider init
function and the client are the fields of `w`.  `cancel` is the call deferred
at line 91. -/
def runRootCommandWithProviderAndClient (w : World) (c : Opts) : Run :=
  if !mapIndex w.ValidOperatingSystems c.OperatingSystem then
    ⟨[.cancel],
      .returned (some (InvalidInputf "operating system %q is not supported" [c.OperatingSystem]))⟩
  else if c.PodSyncWorkers = 0 then
    ⟨[.cancel], .returned (some (InvalidInput "pod sync workers must be greater than 0"))⟩
  else
    computeTaint w c

/-! ## Sample collaborators -/

/-- A node object as `NodeFromProvider` would build it. -/
def sampleNode : Node :=
  { Name := "vk-0", ResourceVersion := "41", Labels := [("type", "virtual-kubelet")],
    Taints := [], KubeletVersion := "v1.0.0" }

/-- A world in which every collaborator succeeds, the pod controller becomes
ready in time and the enclosing context is cancelled in the end, on which the
pod controller loop returns the cancellation error and the node controller
loop returns nil. -/
def stubWorld : World :=
  { ValidOperatingSystems := [("linux", true), ("windows", true)]
    getTaint := fun _ => .ok { Key := "virtual-kubelet.io/provider", Value := "mock", Effect := "NoSchedule" }
    NewResourceManager := fun ls => .ok { listers := ls }
    getAPIConfig := fun _ => .ok { AuthWebhookEnabled := false, Auth := none }
    BuildAuth := fun _ _ => .ok "auth"
    VKUBELET_POD_IP := "10.0.0.7"
    pInit := fun cfg => .ok { name := cfg.NodeName, isNodeProvider := false }
    NodeFromProvider := fun _ _ _ _ => sampleNode
    NewNodeController := fun _ _ _ => none
    NewPodController := fun _ => none
    setupHTTPServer := fun _ _ => none
    select := .ready
    ctxCancelled := true
    completions := [⟨.podController, some .canceled⟩, ⟨.nodeController, none⟩]
    IsNotFound := fun e => e == some (.other "nodes \"vk-0\" not found")
    nodesCreate := fun n => .ok n }

/-- The world `stubWorld` with a provider init function that refuses. -/
def refusingInitWorld : World :=
  { stubWorld with pInit := fun _ => .error (.other "no credentials") }

/-- The world `stubWorld` with a `node.NewNodeController` that fails. -/
def brokenNodeControllerWorld : World :=
  { stubWorld with NewNodeController := fun _ _ _ => some (.other "nil node provider") }

/-- The world `stubWorld` in which the pod controller loop fails with an error
of its own while the orchestrator waits. -/
def crashingPodControllerWorld : World :=
  { stubWorld with completions := [⟨.podController, some (.other "provider crashed")⟩] }

/-- The world `stubWorld` in which the node controller loop answers the
cancellation with the cancellation error. -/
def cancelledNodeControllerWorld : World :=
  { stubWorld with
    completions := [⟨.podController, some .canceled⟩, ⟨.nodeController, some .canceled⟩] }

/-- A configuration that passes validation. -/
def stubOpts : Opts :=
  { Provider := "mock", NodeName := "vk-0", OperatingSystem := "linux", KubeNamespace := "",
    KubeClusterDomain := "cluster.local", ProviderConfigPath := "", Version := "v1.0.0",
    PodSyncWorkers := 10, StartupTimeout := 0, ListenPort := 10250,
    DisableTaint := true, EnableNodeLease := false }

/-! ## Shapes of runs, used to state the lemmas below -/

/-- A run that stopped at a failed provider init: the wrapped error is
returned, and neither controller loop nor the HTTP server was started. -/
def Run.abortedAtInit (r : Run) (c : Opts) (e : Err) : Prop :=
  r.outcome = .returned (some (.wrap e "error initializing provider %s" [c.Provider]))
    ∧ (∀ n, Event.goPodControllerRun n ∉ r.trace)
    ∧ Event.goNodeControllerRun ∉ r.trace
    ∧ Event.setupHTTPServer ∉ r.trace

/-- The events of lines 241 to 266, after the HTTP server is set up. -/
def Event.isSupervision : Event → Bool
  | .goPodControllerRun _ => true
  | .waitFor _ => true
  | .goNodeControllerRun => true
  | .awaitCtxDone => true
  | .cancelHTTP => true
  | _ => false

/-- A run that, when it holds a supervision event at all, is the supervision
phase preceded by startup events only. -/
def Run.reachesSupervise (r : Run) (w : World) (c : Opts) : Prop :=
  (∃ e ∈ r.trace, e.isSupervision = true) →
    ∃ pre, r = Run.prepend pre (supervise w c) ∧ ∀ e ∈ pre, e.isSupervision = false

/-- The events of the cache setup and of the provider init call. -/
def Event.isCacheOrInit : Event → Bool
  | .newResourceManager _ => true
  | .startPodInformers => true
  | .startScmInformers => true
  | .providerInit _ => true
  | _ => false

/-- A run in which the provider init call on `cfg`, if present, comes after
the events `front` and the events of one of the two forms of `mid`, and is
followed by no cache setup and no second init call. -/
def Run.initAfter (r : Run) (front : List Event) (cfg : InitConfig) : Prop :=
  Event.providerInit cfg ∈ r.trace →
    ∃ mid post, r.trace = front ++ mid ++ [.providerInit cfg] ++ post
      ∧ (mid = [.getAPIConfig] ∨ mid = [.getAPIConfig, .buildAuth])
      ∧ ∀ e ∈ post, e.isCacheOrInit = false

/-! ## Validation -/

/-- C2: a configuration whose operating system tag is not a key of
`provider.ValidOperatingSystems` (or is a key mapped to false) makes the
orchestrator return the invalid-input error about the operating system,
whatever the other fields of the configuration (the worker count included)
and whatever the collaborators would answer; the only thing that runs is the
deferred `cancel`, so the provider init function is never invoked. -/
theorem unsupported_os_rejected (w : World) (c : Opts)
    (h : w.ValidOperatingSystems.lookup c.OperatingSystem ≠ some true) :
    (runRootCommandWithProviderAndClient w c).outcome
        = .returned (some (InvalidInputf "operating system %q is not supported" [c.OperatingSystem]))
      ∧ IsInvalidInput
          (some (InvalidInputf "operating system %q is not supported" [c.OperatingSystem])) = true
      ∧ (runRootCommandWithProviderAndClient w c).trace = [.cancel]
      ∧ ∀ cfg, Event.providerInit cfg ∉ (runRootCommandWithProviderAndClient w c).trace := by
  have hidx : mapIndex w.ValidOperatingSystems c.OperatingSystem = false := by
    unfold mapIndex
    cases hl : w.ValidOperatingSystems.lookup c.OperatingSystem with
    | none => rfl
    | some b =>
      cases b with
      | false => rfl
      | true => exact absurd hl h
  simp [runRootCommandWithProviderAndClient, hidx, IsInvalidInput, InvalidInputf]

/-- An instance: the tag `plan9`, which is no key of the map, with zero
workers. -/
theorem unsupported_os_rejected_witness :
    stubWorld.ValidOperatingSystems.lookup "plan9" ≠ some true
      ∧ (runRootCommandWithProviderAndClient stubWorld
            { stubOpts with OperatingSystem := "plan9", PodSyncWorkers := 0 }).outcome
          = .returned (some (InvalidInputf "operating system %q is not supported" ["plan9"])) :=
  ⟨by decide,
    (unsupported_os_rejected stubWorld
      { stubOpts with OperatingSystem := "plan9", PodSyncWorkers := 0 } (by decide)).1⟩

/-- A worker count of exactly zero is rejected before anything is started. -/
theorem zero_workers_rejected (w : World) (c : Opts)
    (hos : mapIndex w.ValidOperatingSystems c.OperatingSystem = true)
    (h : c.PodSyncWorkers = 0) :
    runRootCommandWithProviderAndClient w c
      = ⟨[.cancel], .returned (some (InvalidInput "pod sync workers must be greater than 0"))⟩ := by
  simp [runRootCommandWithProviderAndClient, hos, h]

/-- A worker count other than zero passes validation: the run is the rest of
the startup sequence. -/
theorem nonzero_workers_pass_validation (w : World) (c : Opts)
    (hos : mapIndex w.ValidOperatingSystems c.OperatingSystem = true)
    (h : c.PodSyncWorkers ≠ 0) :
    runRootCommandWithProviderAndClient w c = computeTaint w c := by
  simp [runRootCommandWithProviderAndClient, hos, h]

/-- C1: the run of `stubWorld` with a supported operating system and a worker
count of -1.  The check `c.PodSyncWorkers == 0` lets the negative count
through: the informers are started, the provider init function is invoked,
the pod controller is launched with -1 workers and the function returns nil
instead of the invalid-input error. -/
theorem negative_workers_not_rejected :
    runRootCommandWithProviderAndClient stubWorld { stubOpts with PodSyncWorkers := -1 }
      = ⟨[.newResourceManager
            [.pods, .secrets, .configMaps, .services, .persistentVolumeClaims,
              .persistentVolumes],
          .startPodInformers, .startScmInformers, .getAPIConfig,
          .providerInit
            { ConfigPath := "", NodeName := "vk-0", OperatingSystem := "linux",
              ResourceManager :=
                { listers := [.pods, .secrets, .configMaps, .services,
                    .persistentVolumeClaims, .persistentVolumes] },
              DaemonPort := 10250, InternalIP := "10.0.0.7",
              KubeClusterDomain := "cluster.local" },
          .nodeFromProvider, .newNodeController .naive sampleNode false,
          .startEventBroadcaster, .newPodController, .setupHTTPServer,
          .goPodControllerRun (-1), .goNodeControllerRun, .awaitCtxDone,
          .cancelHTTP, .cancel],
        .returned none⟩ := by
  decide

/-! ## The node-status-update error handler -/

/-- C3, as stated, fails: for a not-found error and a node API whose create
call is refused, the handler returns the error of the create call, not nil. -/
theorem notFound_create_refused_surfaces :
    ({ stubWorld with nodesCreate := fun _ => .error (.other "create refused") }).IsNotFound
        (some (.other "nodes \"vk-0\" not found")) = true
      ∧ (nodeStatusUpdateErrorHandler
            { stubWorld with nodesCreate := fun _ => .error (.other "create refused") }
            sampleNode (some (.other "nodes \"vk-0\" not found"))).2
          = some (.other "create refused") := by
  decide

/-- C3, amended: for every error that the not-found test accepts, the handler
issues exactly one call to the node API, a create (so no update) of the node
object with its resource version emptied and every other field unchanged, and
it returns nil when that create succeeds and the error of the create
otherwise. -/
theorem notFound_recreates_node (w : World) (pNode : Node) (err : Option Err)
    (h : w.IsNotFound err = true) :
    (nodeStatusUpdateErrorHandler w pNode err).1
        = [.create { pNode with ResourceVersion := "" }]
      ∧ (∀ n, NodeCall.update n ∉ (nodeStatusUpdateErrorHandler w pNode err).1)
      ∧ ({ pNode with ResourceVersion := "" } : Node)
          = ⟨pNode.Name, "", pNode.Labels, pNode.Taints, pNode.KubeletVersion⟩
      ∧ (∀ created, w.nodesCreate { pNode with ResourceVersion := "" } = .ok created →
          (nodeStatusUpdateErrorHandler w pNode err).2 = none)
      ∧ (∀ e, w.nodesCreate { pNode with ResourceVersion := "" } = .error e →
          (nodeStatusUpdateErrorHandler w pNode err).2 = some e) := by
  unfold nodeStatusUpdateErrorHandler
  cases hc : w.nodesCreate { pNode with ResourceVersion := "" } <;> simp [h, hc]

/-- An instance: in `stubWorld` the create succeeds and the handler returns
nil. -/
theorem notFound_recreates_node_witness :
    stubWorld.IsNotFound (some (.other "nodes \"vk-0\" not found")) = true
      ∧ (nodeStatusUpdateErrorHandler stubWorld sampleNode
            (some (.other "nodes \"vk-0\" not found"))).2 = none :=
  ⟨by decide,
    (notFound_recreates_node stubWorld sampleNode (some (.other "nodes \"vk-0\" not found"))
      (by decide)).2.2.2.1 { sampleNode with ResourceVersion := "" } rfl⟩

/-- C4: for every error (nil included) that the not-found test rejects, the
handler returns that very error and makes no call to the node API. -/
theorem other_error_returned_unchanged (w : World) (pNode : Node) (err : Option Err)
    (h : w.IsNotFound err = false) :
    (nodeStatusUpdateErrorHandler w pNode err).2 = err
      ∧ (nodeStatusUpdateErrorHandler w pNode err).1 = []
      ∧ ∀ n, NodeCall.create n ∉ (nodeStatusUpdateErrorHandler w pNode err).1 := by
  simp [nodeStatusUpdateErrorHandler, h]

/-- An instance: a wrapped timeout error comes back as it went in. -/
theorem other_error_returned_unchanged_witness :
    stubWorld.IsNotFound (some (.wrap (.other "etcd timeout") "update node status" [])) = false
      ∧ (nodeStatusUpdateErrorHandler stubWorld sampleNode
            (some (.wrap (.other "etcd timeout") "update node status" []))).2
          = some (.wrap (.other "etcd timeout") "update node status" []) :=
  ⟨by decide,
    (other_error_returned_unchanged stubWorld sampleNode
      (some (.wrap (.other "etcd timeout") "update node status" [])) (by decide)).1⟩

/-! ## Startup sequence -/

@[simp]
theorem Run.prepend_trace (tr : List Event) (r : Run) :
    (Run.prepend tr r).trace = tr ++ r.trace := rfl

@[simp]
theorem Run.prepend_outcome (tr : List Event) (r : Run) :
    (Run.prepend tr r).outcome = r.outcome := rfl

theorem supervise_no_providerInit (w : World) (c : Opts) (cfg : InitConfig) :
    Event.providerInit cfg ∉ (supervise w c).trace := by
  unfold supervise launchNodeController
  repeat' split
  all_goals simp

theorem buildControllers_no_providerInit (w : World) (c : Opts) (taint : Option Taint)
    (p : Provider) (apiConfig : APIConfig) (cfg : InitConfig) :
    Event.providerInit cfg ∉ (buildControllers w c taint p apiConfig).trace := by
  have hs := supervise_no_providerInit w c cfg
  unfold buildControllers
  simp only []
  repeat' split
  all_goals simp [hs]

theorem callProviderInit_aborted (w : World) (c : Opts) (taint : Option Taint)
    (rm : ResourceManager) (apiConfig : APIConfig) (cfg : InitConfig) (e : Err)
    (hmem : Event.providerInit cfg ∈ (callProviderInit w c taint rm apiConfig).trace)
    (herr : w.pInit cfg = .error e) :
    (callProviderInit w c taint rm apiConfig).abortedAtInit c e := by
  have hb := buildControllers_no_providerInit w c taint
  revert hmem
  unfold callProviderInit Run.abortedAtInit
  split
  · rename_i err herr2
    intro hmem
    have hcfg : cfg = initConfig w c rm := by simpa using hmem
    subst hcfg
    rw [herr] at herr2
    cases herr2
    simp
  · rename_i p hok
    intro hmem
    have hcfg : cfg = initConfig w c rm := by simpa [hb] using hmem
    subst hcfg
    rw [herr] at hok
    cases hok

theorem initProvider_aborted (w : World) (c : Opts) (taint : Option Taint)
    (rm : ResourceManager) (cfg : InitConfig) (e : Err)
    (hmem : Event.providerInit cfg ∈ (initProvider w c taint rm).trace)
    (herr : w.pInit cfg = .error e) :
    (initProvider w c taint rm).abortedAtInit c e := by
  have hc := fun apiConfig hm => callProviderInit_aborted w c taint rm apiConfig cfg e hm herr
  revert hmem
  unfold initProvider
  repeat' split
  all_goals intro hmem
  all_goals simp at hmem
  all_goals simpa [Run.abortedAtInit] using hc _ hmem

theorem startCaches_aborted (w : World) (c : Opts) (taint : Option Taint)
    (cfg : InitConfig) (e : Err)
    (hmem : Event.providerInit cfg ∈ (startCaches w c taint).trace)
    (herr : w.pInit cfg = .error e) :
    (startCaches w c taint).abortedAtInit c e := by
  have hc := fun rm hm => initProvider_aborted w c taint rm cfg e hm herr
  revert hmem
  unfold startCaches
  repeat' split
  all_goals intro hmem
  all_goals simp at hmem
  all_goals simpa [Run.abortedAtInit] using hc _ hmem

theorem computeTaint_aborted (w : World) (c : Opts) (cfg : InitConfig) (e : Err)
    (hmem : Event.providerInit cfg ∈ (computeTaint w c).trace)
    (herr : w.pInit cfg = .error e) :
    (computeTaint w c).abortedAtInit c e := by
  have hc := fun taint hm => startCaches_aborted w c taint cfg e hm herr
  revert hmem
  unfold computeTaint
  repeat' split
  all_goals intro hmem
  all_goals try simp at hmem
  all_goals first | exact hc _ hmem | simpa [Run.abortedAtInit] using hc _ hmem

/-- C5: in every run in which the provider init function is invoked (on the
init config `cfg`) and answers with an error `e`, the orchestrator returns
`e` wrapped with the message of the provider-initialisation phase (so the
root cause of the returned error is the root cause of `e`), and neither the
pod controller loop, nor the node controller loop, nor the HTTP server is
started. -/
theorem providerInit_error_aborts (w : World) (c : Opts) (cfg : InitConfig) (e : Err)
    (hmem : Event.providerInit cfg ∈ (runRootCommandWithProviderAndClient w c).trace)
    (herr : w.pInit cfg = .error e) :
    (runRootCommandWithProviderAndClient w c).outcome
        = .returned (some (.wrap e "error initializing provider %s" [c.Provider]))
      ∧ Cause (.wrap e "error initializing provider %s" [c.Provider]) = Cause e
      ∧ (∀ n, Event.goPodControllerRun n ∉ (runRootCommandWithProviderAndClient w c).trace)
      ∧ Event.goNodeControllerRun ∉ (runRootCommandWithProviderAndClient w c).trace
      ∧ Event.setupHTTPServer ∉ (runRootCommandWithProviderAndClient w c).trace := by
  have hc := fun hm => computeTaint_aborted w c cfg e hm herr
  refine ⟨?_, by simp [Cause], ?_⟩
  all_goals revert hmem
  all_goals unfold runRootCommandWithProviderAndClient
  all_goals repeat' split
  all_goals intro hmem
  all_goals try simp at hmem
  · exact (hc hmem).1
  · exact (hc hmem).2

/-- An instance: the run of `refusingInitWorld` returns the wrapped refusal. -/
theorem providerInit_error_aborts_witness :
    Event.providerInit (initConfig refusingInitWorld stubOpts ⟨informerListers⟩)
        ∈ (runRootCommandWithProviderAndClient refusingInitWorld stubOpts).trace
      ∧ (runRootCommandWithProviderAndClient refusingInitWorld stubOpts).outcome
          = .returned (some (.wrap (.other "no credentials") "error initializing provider %s"
              ["mock"])) :=
  ⟨by decide,
    (providerInit_error_aborts refusingInitWorld stubOpts
      (initConfig refusingInitWorld stubOpts ⟨informerListers⟩) (.other "no credentials")
      (by decide) rfl).1⟩

/-! ## Supervision -/

theorem Run.reachesSupervise_prepend (tr : List Event) (r : Run) (w : World) (c : Opts)
    (htr : ∀ e ∈ tr, e.isSupervision = false) (h : r.reachesSupervise w c) :
    (Run.prepend tr r).reachesSupervise w c := by
  rintro ⟨e, he, hsup⟩
  simp only [Run.prepend_trace, List.mem_append] at he
  rcases he with he | he
  · rw [htr e he] at hsup
    cases hsup
  · obtain ⟨pre, hpre, hclean⟩ := h ⟨e, he, hsup⟩
    refine ⟨tr ++ pre, ?_, ?_⟩
    · rw [hpre]
      simp [Run.prepend]
    · intro x hx
      rcases List.mem_append.mp hx with hx | hx
      · exact htr x hx
      · exact hclean x hx

theorem Run.reachesSupervise_of_clean (r : Run) (w : World) (c : Opts)
    (htr : ∀ e ∈ r.trace, e.isSupervision = false) : r.reachesSupervise w c := by
  rintro ⟨e, he, hsup⟩
  rw [htr e he] at hsup
  cases hsup

theorem supervise_reachesSupervise (w : World) (c : Opts) :
    (supervise w c).reachesSupervise w c :=
  fun _ => ⟨[], by simp [Run.prepend], by simp⟩

theorem buildControllers_reachesSupervise (w : World) (c : Opts) (taint : Option Taint)
    (p : Provider) (apiConfig : APIConfig) :
    (buildControllers w c taint p apiConfig).reachesSupervise w c := by
  unfold buildControllers
  simp only []
  apply Run.reachesSupervise_prepend _ _ _ _ (by simp [Event.isSupervision])
  split
  · exact Run.reachesSupervise_of_clean _ _ _ (by simp [Event.isSupervision])
  · apply Run.reachesSupervise_prepend _ _ _ _ (by simp [Event.isSupervision])
    split
    · exact Run.reachesSupervise_of_clean _ _ _ (by simp [Event.isSupervision])
    · apply Run.reachesSupervise_prepend _ _ _ _ (by simp [Event.isSupervision])
      split
      · exact Run.reachesSupervise_of_clean _ _ _ (by simp [Event.isSupervision])
      · exact supervise_reachesSupervise w c

theorem callProviderInit_reachesSupervise (w : World) (c : Opts) (taint : Option Taint)
    (rm : ResourceManager) (apiConfig : APIConfig) :
    (callProviderInit w c taint rm apiConfig).reachesSupervise w c := by
  unfold callProviderInit
  apply Run.reachesSupervise_prepend _ _ _ _ (by simp [Event.isSupervision])
  split
  · exact Run.reachesSupervise_of_clean _ _ _ (by simp [Event.isSupervision])
  · exact buildControllers_reachesSupervise w c taint _ apiConfig

theorem initProvider_reachesSupervise (w : World) (c : Opts) (taint : Option Taint)
    (rm : ResourceManager) : (initProvider w c taint rm).reachesSupervise w c := by
  unfold initProvider
  apply Run.reachesSupervise_prepend _ _ _ _ (by simp [Event.isSupervision])
  split
  · exact Run.reachesSupervise_of_clean _ _ _ (by simp [Event.isSupervision])
  · split
    · apply Run.reachesSupervise_prepend _ _ _ _ (by simp [Event.isSupervision])
      split
      · exact Run.reachesSupervise_of_clean _ _ _ (by simp [Event.isSupervision])
      · exact callProviderInit_reachesSupervise w c taint rm _
    · exact callProviderInit_reachesSupervise w c taint rm _

theorem startCaches_reachesSupervise (w : World) (c : Opts) (taint : Option Taint) :
    (startCaches w c taint).reachesSupervise w c := by
  unfold startCaches
  apply Run.reachesSupervise_prepend _ _ _ _ (by simp [Event.isSupervision])
  split
  · exact Run.reachesSupervise_of_clean _ _ _ (by simp [Event.isSupervision])
  · apply Run.reachesSupervise_prepend _ _ _ _ (by simp [Event.isSupervision])
    exact initProvider_reachesSupervise w c taint _

theorem computeTaint_reachesSupervise (w : World) (c : Opts) :
    (computeTaint w c).reachesSupervise w c := by
  unfold computeTaint
  split
  · apply Run.reachesSupervise_prepend _ _ _ _ (by simp [Event.isSupervision])
    split
    · exact Run.reachesSupervise_of_clean _ _ _ (by simp [Event.isSupervision])
    · exact startCaches_reachesSupervise w c _
  · exact startCaches_reachesSupervise w c _

/-- Every run that holds a supervision event is the supervision phase
preceded by startup events. -/
theorem run_reachesSupervise (w : World) (c : Opts) :
    (runRootCommandWithProviderAndClient w c).reachesSupervise w c := by
  unfold runRootCommandWithProviderAndClient
  split
  · exact Run.reachesSupervise_of_clean _ _ _ (by simp [Event.isSupervision])
  · split
    · exact Run.reachesSupervise_of_clean _ _ _ (by simp [Event.isSupervision])
    · exact computeTaint_reachesSupervise w c

/-- The events of the supervision phase, by the branch taken at the gate. -/
theorem supervise_cases (w : World) (c : Opts) :
    (c.StartupTimeout ≤ 0 ∧ supervise w c
        = Run.prepend [.goPodControllerRun c.PodSyncWorkers] (launchNodeController w))
    ∨ (0 < c.StartupTimeout ∧ w.select = .ready ∧ supervise w c
        = Run.prepend [.goPodControllerRun c.PodSyncWorkers, .waitFor c.StartupTimeout]
            (launchNodeController w))
    ∨ (0 < c.StartupTimeout ∧ w.select ≠ .ready ∧ ∃ err, waitFor w.select = some err ∧
        supervise w c
          = ⟨[.goPodControllerRun c.PodSyncWorkers, .waitFor c.StartupTimeout, .cancelHTTP,
              .cancel], .returned (some err)⟩) := by
  unfold supervise
  by_cases ht : c.StartupTimeout > 0
  · cases hs : w.select <;> simp [ht, waitFor, Run.prepend]
  · left
    simp [ht, not_lt.mp ht]

/-- The three ways the launch of the node controller ends. -/
theorem launchNodeController_cases (w : World) :
    (∃ err, firstFatal w.completions = some err ∧ launchNodeController w
        = ⟨[.goNodeControllerRun, .awaitCtxDone, .fatal err], .terminated err⟩)
    ∨ (firstFatal w.completions = none ∧ w.ctxCancelled = true ∧ launchNodeController w
        = ⟨[.goNodeControllerRun, .awaitCtxDone, .cancelHTTP, .cancel], .returned none⟩)
    ∨ (firstFatal w.completions = none ∧ w.ctxCancelled = false ∧ launchNodeController w
        = ⟨[.goNodeControllerRun, .awaitCtxDone], .blocked⟩) := by
  unfold launchNodeController
  cases hf : firstFatal w.completions with
  | some err => exact Or.inl ⟨err, rfl, by simp [Run.prepend]⟩
  | none =>
    cases hc : w.ctxCancelled with
    | true => exact Or.inr (Or.inl ⟨rfl, rfl, by simp [Run.prepend]⟩)
    | false => exact Or.inr (Or.inr ⟨rfl, rfl, by simp [Run.prepend]⟩)

/-- The node controller is launched by the supervision phase exactly when the
gate is open. -/
theorem supervise_launches_iff (w : World) (c : Opts) :
    Event.goNodeControllerRun ∈ (supervise w c).trace
      ↔ (c.StartupTimeout ≤ 0 ∨ w.select = .ready) := by
  rcases supervise_cases w c with ⟨ht, h⟩ | ⟨ht, hs, h⟩ | ⟨ht, hs, err, _, h⟩
  · rw [h]
    rcases launchNodeController_cases w with ⟨err, _, hl⟩ | ⟨_, _, hl⟩ | ⟨_, _, hl⟩ <;>
      simp [hl, ht]
  · rw [h]
    rcases launchNodeController_cases w with ⟨err, _, hl⟩ | ⟨_, _, hl⟩ | ⟨_, _, hl⟩ <;>
      simp [hl, hs]
  · rw [h]
    simp [hs, ht]

/-- C6: in every run that reaches the gate (the pod controller loop has been
launched), the node controller loop is launched if and only if the startup
timeout is not positive or the `select` of `waitFor` takes the ready case.
With a timeout that is not positive `waitFor` is not called; with a positive
one it is, and when the deadline case fires `waitFor` returns the deadline
error of the context wrapped, the orchestrator returns that error and the
node controller loop is not launched. -/
theorem readiness_gate (w : World) (c : Opts)
    (hreach : Event.goPodControllerRun c.PodSyncWorkers
      ∈ (runRootCommandWithProviderAndClient w c).trace) :
    (Event.goNodeControllerRun ∈ (runRootCommandWithProviderAndClient w c).trace
        ↔ (c.StartupTimeout ≤ 0 ∨ w.select = .ready))
      ∧ (c.StartupTimeout ≤ 0 →
          ∀ t, Event.waitFor t ∉ (runRootCommandWithProviderAndClient w c).trace)
      ∧ (0 < c.StartupTimeout →
          Event.waitFor c.StartupTimeout ∈ (runRootCommandWithProviderAndClient w c).trace)
      ∧ (0 < c.StartupTimeout → w.select = .deadline →
          waitFor w.select = some (.wrap .deadlineExceeded "Error while starting up VK" [])
            ∧ (runRootCommandWithProviderAndClient w c).outcome
                = .returned (some (.wrap .deadlineExceeded "Error while starting up VK" []))
            ∧ Event.goNodeControllerRun ∉ (runRootCommandWithProviderAndClient w c).trace) := by
  obtain ⟨pre, hrun, hclean⟩ := run_reachesSupervise w c ⟨_, hreach, rfl⟩
  have hmem : ∀ e : Event, e.isSupervision = true →
      (e ∈ (runRootCommandWithProviderAndClient w c).trace ↔ e ∈ (supervise w c).trace) := by
    intro e he
    rw [hrun, Run.prepend_trace, List.mem_append]
    constructor
    · rintro (h | h)
      · rw [hclean e h] at he
        cases he
      · exact h
    · exact Or.inr
  have hout : (runRootCommandWithProviderAndClient w c).outcome = (supervise w c).outcome := by
    rw [hrun, Run.prepend_outcome]
  refine ⟨?_, ?_, ?_, ?_⟩
  · rw [hmem .goNodeControllerRun rfl]
    exact supervise_launches_iff w c
  · intro ht t
    rw [hmem (.waitFor t) rfl]
    rcases supervise_cases w c with ⟨_, h⟩ | ⟨ht2, _, _⟩ | ⟨ht2, _, _⟩
    · rw [h]
      rcases launchNodeController_cases w with ⟨err, _, hl⟩ | ⟨_, _, hl⟩ | ⟨_, _, hl⟩ <;>
        simp [hl]
    · omega
    · omega
  · intro ht
    rw [hmem (.waitFor c.StartupTimeout) rfl]
    rcases supervise_cases w c with ⟨ht2, _⟩ | ⟨_, _, h⟩ | ⟨_, _, err, _, h⟩
    · omega
    · rw [h]
      simp
    · rw [h]
      simp
  · intro ht hs
    refine ⟨by rw [hs]; rfl, ?_, ?_⟩
    · rw [hout]
      rcases supervise_cases w c with ⟨ht2, _⟩ | ⟨_, hs2, _⟩ | ⟨_, _, err, herr, h⟩
      · omega
      · rw [hs] at hs2
        cases hs2
      · rw [h]
        rw [hs] at herr
        simp only [waitFor] at herr
        rw [herr]
    · rw [hmem .goNodeControllerRun rfl, supervise_launches_iff]
      rw [hs]
      simp
      exact ht

/-- An instance: `stubWorld` with a timeout of five seconds whose deadline
passes first; the run returns the wrapped deadline error. -/
theorem readiness_gate_witness :
    Event.goPodControllerRun 10
        ∈ (runRootCommandWithProviderAndClient { stubWorld with select := .deadline }
            { stubOpts with StartupTimeout := 5000000000 }).trace
      ∧ (runRootCommandWithProviderAndClient { stubWorld with select := .deadline }
            { stubOpts with StartupTimeout := 5000000000 }).outcome
          = .returned (some (.wrap .deadlineExceeded "Error while starting up VK" [])) :=
  ⟨by decide,
    ((readiness_gate { stubWorld with select := .deadline }
      { stubOpts with StartupTimeout := 5000000000 } (by decide)).2.2.2
        (by decide) rfl).2.1⟩

/-- No goroutine body reaches `Fatal` when every loop that returned gave nil
or, for the pod controller, an error caused by cancellation. -/
theorem firstFatal_none_of_quiet (ks : List Completion)
    (hquiet : ∀ k ∈ ks, k.runErr = none
      ∨ (k.loop = .podController ∧ ∃ e, k.runErr = some e ∧ Cause e = .canceled)) :
    firstFatal ks = none := by
  induction ks with
  | nil => rfl
  | cons k ks ih =>
    have hk := hquiet k (List.mem_cons_self k ks)
    have htail := ih (fun x hx => hquiet x (List.mem_cons_of_mem k hx))
    obtain ⟨loop, runErr⟩ := k
    rcases hk with hk | ⟨hl, e, he, hc⟩
    · simp only at hk
      subst hk
      cases loop <;>
        simp [firstFatal, Completion.taskEnd, podControllerTask, nodeControllerTask, htail]
    · simp only at hl he
      subst hl he
      simp [firstFatal, Completion.taskEnd, podControllerTask, hc, htail]

/-- Some goroutine body reaches `Fatal` when a loop returned an error that is
not nil and not caused by cancellation. -/
theorem firstFatal_some_of_failure (ks : List Completion)
    (hfail : ∃ k ∈ ks, ∃ e, k.runErr = some e ∧ Cause e ≠ .canceled) :
    ∃ err, firstFatal ks = some err := by
  induction ks with
  | nil =>
    obtain ⟨k, hk, _⟩ := hfail
    cases hk
  | cons k ks ih =>
    cases hend : k.taskEnd with
    | fatal err => exact ⟨err, by simp [firstFatal, hend]⟩
    | clean =>
      obtain ⟨x, hx, e, he, hc⟩ := hfail
      rcases List.mem_cons.mp hx with hxk | hxt
      · subst hxk
        obtain ⟨loop, runErr⟩ := x
        simp only at he
        subst he
        cases loop <;>
          simp [Completion.taskEnd, podControllerTask, nodeControllerTask, hc] at hend
      · obtain ⟨err, herr⟩ := ih ⟨x, hxt, e, he, hc⟩
        exact ⟨err, by simp [firstFatal, hend, herr]⟩

/-- C7, as stated, fails: in the run of `crashingPodControllerWorld` both
controller loops are launched and the enclosing context is cancelled, yet the
pod controller loop has returned an error of its own, its goroutine reaches
`Fatal`, and the orchestrator neither returns nor calls `cancelHTTP`. -/
theorem fatal_loop_preempts_return :
    Event.goPodControllerRun 10
        ∈ (runRootCommandWithProviderAndClient crashingPodControllerWorld stubOpts).trace
      ∧ Event.goNodeControllerRun
        ∈ (runRootCommandWithProviderAndClient crashingPodControllerWorld stubOpts).trace
      ∧ crashingPodControllerWorld.ctxCancelled = true
      ∧ (runRootCommandWithProviderAndClient crashingPodControllerWorld stubOpts).outcome
          = .terminated (.other "provider crashed")
      ∧ (runRootCommandWithProviderAndClient crashingPodControllerWorld stubOpts).outcome
          ≠ .returned none
      ∧ (runRootCommandWithProviderAndClient crashingPodControllerWorld stubOpts).trace.count
          .cancelHTTP = 0 := by
  decide

/-- The run of `cancelledNodeControllerWorld`: the node controller loop answers
the cancellation with `context.Canceled`, its goroutine reaches `Fatal`, and
the orchestrator neither returns nor calls `cancelHTTP`. -/
theorem cancelled_node_loop_preempts_return :
    (runRootCommandWithProviderAndClient cancelledNodeControllerWorld stubOpts).outcome
        = .terminated .canceled
      ∧ (runRootCommandWithProviderAndClient cancelledNodeControllerWorld stubOpts).trace.count
          .cancelHTTP = 0 := by
  decide

/-- C7, amended: take a run in which both controller loops have been launched.
If every loop that returned while the orchestrator waited gave nil or, for the
pod controller, an error caused by cancellation, then with the enclosing
context cancelled the orchestrator returns nil right after `<-ctx.Done()`,
the deferred `cancelHTTP` and `cancel` run in that order and `cancelHTTP` is
called exactly once in the whole run, while without cancellation it stays
blocked and `cancelHTTP` is not called.  If a loop returned an error that is
not nil and not caused by cancellation, the process is terminated by `Fatal`:
the orchestrator does not return and `cancelHTTP` is not called. -/
theorem cancellation_returns_nil_unless_fatal (w : World) (c : Opts)
    (hpod : Event.goPodControllerRun c.PodSyncWorkers
      ∈ (runRootCommandWithProviderAndClient w c).trace)
    (hnode : Event.goNodeControllerRun ∈ (runRootCommandWithProviderAndClient w c).trace) :
    ((∀ k ∈ w.completions, k.runErr = none
          ∨ (k.loop = .podController ∧ ∃ e, k.runErr = some e ∧ Cause e = .canceled)) →
        (w.ctxCancelled = true →
          (runRootCommandWithProviderAndClient w c).outcome = .returned none
            ∧ (runRootCommandWithProviderAndClient w c).trace.count .cancelHTTP = 1
            ∧ ∃ pre, (runRootCommandWithProviderAndClient w c).trace
                = pre ++ [.goNodeControllerRun, .awaitCtxDone, .cancelHTTP, .cancel])
          ∧ (w.ctxCancelled = false →
              (runRootCommandWithProviderAndClient w c).outcome = .blocked
                ∧ (runRootCommandWithProviderAndClient w c).trace.count .cancelHTTP = 0))
      ∧ ((∃ k ∈ w.completions, ∃ e, k.runErr = some e ∧ Cause e ≠ .canceled) →
          (∃ err, (runRootCommandWithProviderAndClient w c).outcome = .terminated err)
            ∧ (runRootCommandWithProviderAndClient w c).trace.count .cancelHTTP = 0) := by
  obtain ⟨pre, hrun, hclean⟩ := run_reachesSupervise w c ⟨_, hpod, rfl⟩
  have hnode2 : Event.goNodeControllerRun ∈ (supervise w c).trace := by
    rw [hrun, Run.prepend_trace, List.mem_append] at hnode
    rcases hnode with h | h
    · have := hclean _ h
      cases this
    · exact h
  have hpre : pre.count .cancelHTTP = 0 := by
    rw [List.count_eq_zero]
    intro h
    have := hclean _ h
    cases this
  have hsup : ∃ gate, (∀ e ∈ gate, e ≠ Event.cancelHTTP) ∧
      supervise w c = Run.prepend gate (launchNodeController w) := by
    rcases supervise_cases w c with ⟨_, h⟩ | ⟨_, _, h⟩ | ⟨_, _, err, _, h⟩
    · exact ⟨_, by simp, h⟩
    · exact ⟨_, by simp, h⟩
    · rw [h] at hnode2
      simp at hnode2
  obtain ⟨gate, hgate, hsup⟩ := hsup
  have hgate0 : gate.count .cancelHTTP = 0 := by
    rw [List.count_eq_zero]
    intro h
    exact hgate _ h rfl
  rw [hrun, hsup]
  refine ⟨fun hquiet => ⟨fun hcancel => ?_, fun hcancel => ?_⟩, fun hfail => ?_⟩
  · have hf := firstFatal_none_of_quiet _ hquiet
    rcases launchNodeController_cases w with ⟨err, hf2, _⟩ | ⟨_, _, hl⟩ | ⟨_, hc, _⟩
    · rw [hf] at hf2
      cases hf2
    · rw [hl]
      refine ⟨rfl, ?_, pre ++ gate, ?_⟩
      · simp [List.count_cons, hpre, hgate0]
      · simp
    · rw [hcancel] at hc
      cases hc
  · have hf := firstFatal_none_of_quiet _ hquiet
    rcases launchNodeController_cases w with ⟨err, hf2, _⟩ | ⟨_, hc, _⟩ | ⟨_, _, hl⟩
    · rw [hf] at hf2
      cases hf2
    · rw [hcancel] at hc
      cases hc
    · rw [hl]
      refine ⟨rfl, ?_⟩
      simp [List.count_cons, hpre, hgate0]
  · obtain ⟨err, hf⟩ := firstFatal_some_of_failure _ hfail
    rcases launchNodeController_cases w with ⟨err2, _, hl⟩ | ⟨hf2, _, _⟩ | ⟨hf2, _, _⟩
    · rw [hl]
      refine ⟨⟨err2, rfl⟩, ?_⟩
      simp [List.count_cons, hpre, hgate0]
    · rw [hf] at hf2
      cases hf2
    · rw [hf] at hf2
      cases hf2

/-- An instance: the run of `stubWorld`, whose context is cancelled after both
loops are launched; the pod controller loop returns the cancellation error,
the node controller loop nil, and the orchestrator returns nil. -/
theorem cancellation_returns_nil_unless_fatal_witness :
    Event.goPodControllerRun 10 ∈ (runRootCommandWithProviderAndClient stubWorld stubOpts).trace
      ∧ Event.goNodeControllerRun ∈ (runRootCommandWithProviderAndClient stubWorld stubOpts).trace
      ∧ stubWorld.ctxCancelled = true
      ∧ (runRootCommandWithProviderAndClient stubWorld stubOpts).outcome = .returned none
      ∧ (runRootCommandWithProviderAndClient stubWorld stubOpts).trace.count .cancelHTTP = 1 :=
  have hquiet : ∀ k ∈ stubWorld.completions, k.runErr = none
      ∨ (k.loop = .podController ∧ ∃ e, k.runErr = some e ∧ Cause e = .canceled) := by
    intro k hk
    simp only [stubWorld, List.mem_cons, List.mem_singleton, List.not_mem_nil, or_false] at hk
    rcases hk with rfl | rfl
    · exact Or.inr ⟨rfl, .canceled, rfl, rfl⟩
    · exact Or.inl rfl
  ⟨by decide, by decide, rfl,
    (((cancellation_returns_nil_unless_fatal stubWorld stubOpts (by decide) (by decide)).1
      hquiet).1 rfl).1,
    (((cancellation_returns_nil_unless_fatal stubWorld stubOpts (by decide) (by decide)).1
      hquiet).1 rfl).2.1⟩

/-! ## The two supervised tasks -/

/-- The pod controller task ends in `Fatal` exactly for an error that is not
nil and whose cause is not `context.Canceled`. -/
theorem podControllerTask_fatal_iff (runErr : Option Err) :
    (∃ err, podControllerTask runErr = .fatal err)
      ↔ ∃ err, runErr = some err ∧ Cause err ≠ .canceled := by
  cases runErr with
  | none => simp [podControllerTask]
  | some err =>
    by_cases h : Cause err = .canceled <;> simp [podControllerTask, h]

/-- The node controller task ends in `Fatal` for every error that is not nil. -/
theorem nodeControllerTask_fatal_iff (runErr : Option Err) :
    (∃ err, nodeControllerTask runErr = .fatal err) ↔ ∃ err, runErr = some err := by
  cases runErr <;> simp [nodeControllerTask]

/-- C8: an error whose cause is `context.Canceled` returned by
`nodeRunner.Run` ends the node controller task in `Fatal`, while the same
error returned by `pc.Run` ends the pod controller task quietly. -/
theorem nodeController_cancel_is_fatal :
    Cause (.wrap .canceled "node controller stopped" []) = .canceled
      ∧ nodeControllerTask (some (.wrap .canceled "node controller stopped" []))
          = .fatal (.wrap .canceled "node controller stopped" [])
      ∧ nodeControllerTask (some .canceled) = .fatal .canceled
      ∧ podControllerTask (some (.wrap .canceled "node controller stopped" [])) = .clean
      ∧ podControllerTask (some .canceled) = .clean := by
  decide

/-! ## Failures of the startup phase -/

/-- A failure of `node.NewNodeController` turns the rest of the startup into a
`Fatal`, whatever the configuration. -/
theorem buildControllers_fatal (w : World) (c : Opts) (taint : Option Taint) (p : Provider)
    (apiConfig : APIConfig) (err : Err)
    (h : w.NewNodeController (if p.isNodeProvider then .ofProvider p else .naive)
      (w.NodeFromProvider c.NodeName taint p c.Version) c.EnableNodeLease = some err) :
    (buildControllers w c taint p apiConfig).outcome = .terminated err := by
  simp [buildControllers, h]

/-- A failure of `node.NewPodController`, the next constructor, is returned to
the caller instead. -/
theorem buildControllers_podController_error (w : World) (c : Opts) (taint : Option Taint)
    (p : Provider) (apiConfig : APIConfig) (err : Err)
    (hn : w.NewNodeController (if p.isNodeProvider then .ofProvider p else .naive)
      (w.NodeFromProvider c.NodeName taint p c.Version) c.EnableNodeLease = none)
    (h : w.NewPodController p = some err) :
    (buildControllers w c taint p apiConfig).outcome
      = .returned (some (.wrap err "error setting up pod controller" [])) := by
  simp [buildControllers, hn, h]

/-- C9: when `node.NewNodeController` fails, the orchestrator does not return:
the run ends in `Fatal` with that error, before any controller loop is
launched and without the deferred `cancel`. -/
theorem newNodeController_failure_terminates :
    runRootCommandWithProviderAndClient brokenNodeControllerWorld stubOpts
      = ⟨[.newResourceManager informerListers, .startPodInformers, .startScmInformers,
          .getAPIConfig,
          .providerInit (initConfig brokenNodeControllerWorld stubOpts ⟨informerListers⟩),
          .nodeFromProvider, .newNodeController .naive sampleNode false,
          .fatal (.other "nil node provider")],
        .terminated (.other "nil node provider")⟩ := by
  decide

/-! ## Order of the cache setup -/

theorem supervise_after_init (w : World) (c : Opts) :
    ∀ e ∈ (supervise w c).trace, e.isCacheOrInit = false := by
  rcases supervise_cases w c with ⟨_, h⟩ | ⟨_, _, h⟩ | ⟨_, _, err, _, h⟩ <;> rw [h]
  · rcases launchNodeController_cases w with ⟨err, _, hl⟩ | ⟨_, _, hl⟩ | ⟨_, _, hl⟩ <;>
      simp [hl, Event.isCacheOrInit]
  · rcases launchNodeController_cases w with ⟨err, _, hl⟩ | ⟨_, _, hl⟩ | ⟨_, _, hl⟩ <;>
      simp [hl, Event.isCacheOrInit]
  · simp [Event.isCacheOrInit]

theorem buildControllers_after_init (w : World) (c : Opts) (taint : Option Taint)
    (p : Provider) (apiConfig : APIConfig) :
    ∀ e ∈ (buildControllers w c taint p apiConfig).trace, e.isCacheOrInit = false := by
  have hs := supervise_after_init w c
  unfold buildControllers
  simp only []
  repeat' split
  all_goals simp [Event.isCacheOrInit]
  all_goals exact hs

theorem callProviderInit_shape (w : World) (c : Opts) (taint : Option Taint)
    (rm : ResourceManager) (apiConfig : APIConfig) (cfg : InitConfig)
    (hmem : Event.providerInit cfg ∈ (callProviderInit w c taint rm apiConfig).trace) :
    cfg = initConfig w c rm
      ∧ ∃ post, (callProviderInit w c taint rm apiConfig).trace = [.providerInit cfg] ++ post
        ∧ ∀ e ∈ post, e.isCacheOrInit = false := by
  have hb := buildControllers_no_providerInit w c taint
  have ha := buildControllers_after_init w c taint
  revert hmem
  unfold callProviderInit
  split
  all_goals intro hmem
  all_goals have hcfg : cfg = initConfig w c rm := by simpa [hb] using hmem
  all_goals subst hcfg
  · exact ⟨rfl, [.cancel], rfl, by simp [Event.isCacheOrInit]⟩
  · exact ⟨rfl, _, rfl, ha _ _⟩

theorem initProvider_shape (w : World) (c : Opts) (taint : Option Taint)
    (rm : ResourceManager) (cfg : InitConfig)
    (hmem : Event.providerInit cfg ∈ (initProvider w c taint rm).trace) :
    cfg = initConfig w c rm ∧ (initProvider w c taint rm).initAfter [] cfg := by
  have hc := fun apiConfig => callProviderInit_shape w c taint rm apiConfig cfg
  revert hmem
  unfold initProvider Run.initAfter
  repeat' split
  all_goals intro hmem
  all_goals try simp at hmem
  · obtain ⟨hcfg, post, htr, hpost⟩ := hc _ hmem
    refine ⟨hcfg, fun _ => ⟨[.getAPIConfig, .buildAuth], post, ?_, Or.inr rfl, hpost⟩⟩
    simp [htr]
  · obtain ⟨hcfg, post, htr, hpost⟩ := hc _ hmem
    refine ⟨hcfg, fun _ => ⟨[.getAPIConfig], post, ?_, Or.inl rfl, hpost⟩⟩
    simp [htr]

theorem startCaches_shape (w : World) (c : Opts) (taint : Option Taint) (cfg : InitConfig)
    (hmem : Event.providerInit cfg ∈ (startCaches w c taint).trace) :
    w.NewResourceManager informerListers = .ok cfg.ResourceManager
      ∧ (startCaches w c taint).initAfter
          [.newResourceManager informerListers, .startPodInformers, .startScmInformers] cfg := by
  have hc := fun rm => initProvider_shape w c taint rm cfg
  revert hmem
  unfold startCaches
  split
  all_goals intro hmem
  all_goals simp at hmem
  rename_i rm hrm
  obtain ⟨hcfg, hshape⟩ := hc rm hmem
  refine ⟨by rw [hrm, hcfg]; rfl, fun _ => ?_⟩
  obtain ⟨mid, post, htr, hmid, hpost⟩ := hshape hmem
  refine ⟨mid, post, ?_, hmid, hpost⟩
  simp [htr]

theorem computeTaint_shape (w : World) (c : Opts) (cfg : InitConfig)
    (hmem : Event.providerInit cfg ∈ (computeTaint w c).trace) :
    w.NewResourceManager informerListers = .ok cfg.ResourceManager
      ∧ ∃ pre, (pre = [] ∨ pre = [.getTaint])
        ∧ (computeTaint w c).initAfter
            (pre ++ [.newResourceManager informerListers, .startPodInformers,
              .startScmInformers]) cfg := by
  have hc := fun taint => startCaches_shape w c taint cfg
  revert hmem
  unfold computeTaint
  repeat' split
  all_goals intro hmem
  all_goals try simp at hmem
  · obtain ⟨hrm, hshape⟩ := hc _ hmem
    refine ⟨hrm, [.getTaint], Or.inr rfl, fun _ => ?_⟩
    obtain ⟨mid, post, htr, hmid, hpost⟩ := hshape hmem
    refine ⟨mid, post, ?_, hmid, hpost⟩
    simp [htr]
  · obtain ⟨hrm, hshape⟩ := hc _ hmem
    exact ⟨hrm, [], Or.inl rfl, by simpa using hshape⟩

/-- C10, as stated, fails: in the run of `stubWorld`, which reaches the
provider init call, the resource manager is assembled first and the informers
are started after it. -/
theorem resourceManager_before_informers :
    (∃ cfg, Event.providerInit cfg
        ∈ (runRootCommandWithProviderAndClient stubWorld stubOpts).trace)
      ∧ (runRootCommandWithProviderAndClient stubWorld stubOpts).trace.take 3
          = [.newResourceManager informerListers, .startPodInformers, .startScmInformers]
      ∧ (runRootCommandWithProviderAndClient stubWorld stubOpts).trace.indexOf
            (.newResourceManager informerListers)
          < (runRootCommandWithProviderAndClient stubWorld stubOpts).trace.indexOf
            .startPodInformers := by
  refine ⟨⟨initConfig stubWorld stubOpts ⟨informerListers⟩, by decide⟩, by decide, by decide⟩

/-- C10, amended: in every run that reaches the provider init call, the
resource manager is assembled over the listers of the six informers, then the
pod informers and the other informers are started, then (after the API config
and, with webhook authentication, the auth material) the provider init
function is invoked with the resource manager that `NewResourceManager`
returned; before the assembly only the taint may have been computed, and
after the init call no cache is set up and no second init call is made. -/
theorem caches_before_provider (w : World) (c : Opts) (cfg : InitConfig)
    (hmem : Event.providerInit cfg ∈ (runRootCommandWithProviderAndClient w c).trace) :
    w.NewResourceManager informerListers = .ok cfg.ResourceManager
      ∧ ∃ pre mid post,
          (runRootCommandWithProviderAndClient w c).trace
              = pre
                ++ [.newResourceManager informerListers, .startPodInformers, .startScmInformers]
                ++ mid ++ [.providerInit cfg] ++ post
            ∧ (pre = [] ∨ pre = [.getTaint])
            ∧ (mid = [.getAPIConfig] ∨ mid = [.getAPIConfig, .buildAuth])
            ∧ ∀ e ∈ post, (∀ ls, e ≠ .newResourceManager ls) ∧ e ≠ .startPodInformers
                ∧ e ≠ .startScmInformers ∧ ∀ cfg2, e ≠ .providerInit cfg2 := by
  have hc := computeTaint_shape w c cfg
  revert hmem
  unfold runRootCommandWithProviderAndClient
  repeat' split
  all_goals intro hmem
  all_goals try simp at hmem
  obtain ⟨hrm, pre, hpre, hshape⟩ := hc hmem
  obtain ⟨mid, post, htr, hmid, hpost⟩ := hshape hmem
  refine ⟨hrm, pre, mid, post, htr, hpre, hmid, fun e he => ?_⟩
  have hclean := hpost e he
  refine ⟨?_, ?_, ?_, ?_⟩
  · intro ls h
    rw [h] at hclean
    cases hclean
  · intro h
    rw [h] at hclean
    cases hclean
  · intro h
    rw [h] at hclean
    cases hclean
  · intro cfg2 h
    rw [h] at hclean
    cases hclean

/-- An instance: the run of `stubWorld` reaches the provider init call. -/
theorem caches_before_provider_witness :
    Event.providerInit (initConfig stubWorld stubOpts ⟨informerListers⟩)
        ∈ (runRootCommandWithProviderAndClient stubWorld stubOpts).trace
      ∧ stubWorld.NewResourceManager informerListers
          = .ok (initConfig stubWorld stubOpts ⟨informerListers⟩).ResourceManager :=
  ⟨by decide,
    (caches_before_provider stubWorld stubOpts (initConfig stubWorld stubOpts ⟨informerListers⟩)
      (by decide)).1⟩

end Root
